import Mathlib

/-!
Shallow embedding of `git_repo_manager.py`: a small orchestration script that
provisions a "main" and a "sub" git repository, links the sub repository as a
remote of the main one, and runs commit/push/pull/merge/sync actions by
shelling out to an external command executor.

The external world (subprocess execution, `os.path.exists`, `os.path.abspath`)
is modelled as an oracle `World`.  Every operation returns an `Outcome`
(normal value, or `sys.exit` with a code) together with the ordered trace of
observable events it produced: external commands issued (with their working
directory), `os.makedirs` calls, and printed lines.  Python's module-level
URL globals are passed explicitly as a `Globals` record; `shippedGlobals`
holds the values in the shipped source.
-/

namespace GitRepoManager

/-- Result of one external command execution, as captured by `subprocess.run`. -/
structure ExecResult where
  exitCode : Nat
  stdout : String
  stderr : String
deriving Repr, DecidableEq

/-- Oracle for the outside world: command execution, `os.path.exists`,
`os.path.abspath`. -/
structure World where
  exec : String → Option String → ExecResult
  pathExists : String → Bool
  abspath : String → String

/-- Observable events, in program order: an external command issued with its
working directory, a directory creation, or a printed line. -/
inductive Event where
  | cmd : String → Option String → Event
  | mkdirs : String → Event
  | msg : String → Event
deriving Repr, DecidableEq

/-- A computation either finishes normally or terminates the whole process
(`sys.exit code`). -/
inductive Outcome (α : Type) where
  | ok : α → Outcome α
  | exit : Nat → Outcome α
deriving Repr, DecidableEq

/-- A run of a piece of the script: its outcome plus its event trace. -/
abbrev Run (α : Type) := Outcome α × List Event

/-- Sequencing: a `sys.exit` propagates, skipping the continuation entirely. -/
def seqRun {α β : Type} (x : Run α) (f : α → Run β) : Run β :=
  match x with
  | (Outcome.ok a, tr) => ((f a).1, tr ++ (f a).2)
  | (Outcome.exit c, tr) => (Outcome.exit c, tr)

/-- Sequencing that discards the first value. -/
def seqU {α β : Type} (x : Run α) (y : Run β) : Run β :=
  seqRun x (fun _ => y)

/-- A `print(...)` call. -/
def tell (s : String) : Run Unit :=
  (Outcome.ok (), [Event.msg s])

/-- The completed no-op run. -/
def skip : Run Unit :=
  (Outcome.ok (), [])

/-- `os.path.join` for the one shape the script uses. -/
def joinPath (a b : String) : String :=
  a ++ "/" ++ b

/-- Tokenizer for Python's `str.split()` with no separator: maximal runs of
non-whitespace characters, with `acc` holding the current token reversed. -/
def pySplitGo : List Char → List Char → List String
  | [], acc => if acc.isEmpty then [] else [⟨acc.reverse⟩]
  | c :: cs, acc =>
    if c.isWhitespace then
      if acc.isEmpty then pySplitGo cs [] else ⟨acc.reverse⟩ :: pySplitGo cs []
    else pySplitGo cs (c :: acc)

/-- Python's `str.split()` with no separator: whitespace-separated tokens,
empties dropped. -/
def pySplit (s : String) : List String :=
  pySplitGo s.data []

/-- Python's `str.strip()` with no argument: drop leading and trailing
whitespace characters. -/
def pyStrip (s : String) : String :=
  ⟨((s.data.dropWhile Char.isWhitespace).reverse.dropWhile Char.isWhitespace).reverse⟩

/-- The module-level URL globals of the script. -/
structure Globals where
  mainGitHubURL : String
  subGitHubURL : String

/-- The global values as shipped in the source. -/
def shippedGlobals : Globals :=
  { mainGitHubURL := "https://github.com/SE1020-IT2070-OOP-DSA-25/project-Bashitha-Weerapperuma.git"
    subGitHubURL := "https://github.com/Bashitha-Weerapperuma/AF-SE1020-Production.git" }

/-- `run_command(command, cwd)`: run the command; on exit code 0 return the
stripped stdout, otherwise print the two error lines (the command and the
captured stderr) and `sys.exit(1)`. -/
def run_command (w : World) (command : String) (cwd : Option String) : Run String :=
  let r := w.exec command cwd
  if r.exitCode = 0 then
    (Outcome.ok (pyStrip r.stdout), [Event.cmd command cwd])
  else
    (Outcome.exit 1,
      [Event.cmd command cwd,
       Event.msg ("Error executing command: " ++ command),
       Event.msg ("Error message: " ++ r.stderr)])

/-- The `if not url and GLOBAL: url = GLOBAL; print(...)` substitution at the
top of `setup_repositories`, for one URL. -/
def useGlobalURL (provided globalURL label : String) : String × List Event :=
  if provided = "" ∧ globalURL ≠ "" then
    (globalURL,
     [Event.msg ("Using " ++ label ++ " repository URL from global variable: " ++ globalURL)])
  else (provided, [])

/-- `setup_repositories(main_repo_url, sub_repo_url, main_repo_dir, sub_repo_dir)`:
create both directories, fall back to the globals for empty URLs, then
clone-or-init the main repository and clone the sub repository (erroring out
if no sub URL is available). -/
def setup_repositories (g : Globals) (w : World)
    (main_repo_url0 sub_repo_url0 main_repo_dir sub_repo_dir : String) :
    Run (String × String) :=
  let p1 := useGlobalURL main_repo_url0 g.mainGitHubURL "main"
  let p2 := useGlobalURL sub_repo_url0 g.subGitHubURL "sub"
  let main_repo_url := p1.1
  let sub_repo_url := p2.1
  let stepMain : Run Unit :=
    if w.pathExists (joinPath main_repo_dir ".git") then
      tell ("Main repository already exists in " ++ main_repo_dir)
    else if main_repo_url ≠ "" then
      seqU (tell ("Cloning main repository from " ++ main_repo_url ++ "..."))
        (seqU (run_command w ("git clone " ++ main_repo_url ++ " " ++ main_repo_dir) none) skip)
    else
      seqU (tell ("Initializing new main repository in " ++ main_repo_dir ++ "..."))
        (seqU (run_command w "git init" (some main_repo_dir)) skip)
  let stepSub : Run Unit :=
    if w.pathExists (joinPath sub_repo_dir ".git") then
      tell ("Sub repository already exists in " ++ sub_repo_dir)
    else if sub_repo_url ≠ "" then
      seqU (tell ("Cloning sub repository from " ++ sub_repo_url ++ "..."))
        (seqU (run_command w ("git clone " ++ sub_repo_url ++ " " ++ sub_repo_dir) none) skip)
    else
      (Outcome.exit 1, [Event.msg "Error: No sub repository URL provided"])
  seqU ((Outcome.ok (), [Event.mkdirs main_repo_dir, Event.mkdirs sub_repo_dir]
          ++ p1.2 ++ p2.2) : Run Unit)
    (seqU stepMain
      (seqU stepSub
        (Outcome.ok (main_repo_dir, sub_repo_dir), [])))

/-- `add_sub_repo_as_remote(main_repo_dir, sub_repo_dir, remote_name)`:
resolve the sub path to an absolute path, list the main repository's remotes,
and either update the URL of an existing remote of that exact name or add it
fresh. -/
def add_sub_repo_as_remote (w : World) (main_repo_dir sub_repo_dir remote_name : String) :
    Run Unit :=
  let sub_repo_abs_path := w.abspath sub_repo_dir
  seqRun (run_command w "git remote" (some main_repo_dir)) (fun remotes =>
    if remote_name ∈ pySplit remotes then
      seqU (tell ("Remote '" ++ remote_name ++ "' already exists, updating URL..."))
        (seqU (run_command w
          ("git remote set-url " ++ remote_name ++ " " ++ sub_repo_abs_path)
          (some main_repo_dir)) skip)
    else
      seqU (tell ("Adding sub repository as remote '" ++ remote_name ++ "'..."))
        (seqU (run_command w
          ("git remote add " ++ remote_name ++ " " ++ sub_repo_abs_path)
          (some main_repo_dir)) skip))

/-- `commit_changes(repo_dir, message)`: `git add .`, then
`git commit -m '<message>'` with the message interpolated verbatim. -/
def commit_changes (w : World) (repo_dir message : String) : Run String :=
  seqU (tell ("Committing changes in " ++ repo_dir ++ "..."))
    (seqU (run_command w "git add ." (some repo_dir))
      (seqRun (run_command w ("git commit -m '" ++ message ++ "'") (some repo_dir))
        (fun result => (Outcome.ok result, [Event.msg result]))))

/-- `push_to_repo(source_dir, remote, branch)`. -/
def push_to_repo (w : World) (source_dir remote branch : String) : Run String :=
  seqU (tell ("Pushing changes from " ++ source_dir ++ " to " ++ remote ++ "/" ++ branch ++ "..."))
    (seqRun (run_command w ("git push " ++ remote ++ " " ++ branch) (some source_dir))
      (fun result => (Outcome.ok result, [Event.msg result])))

/-- `pull_from_repo(target_dir, remote, branch)`. -/
def pull_from_repo (w : World) (target_dir remote branch : String) : Run String :=
  seqU (tell ("Pulling changes into " ++ target_dir ++ " from " ++ remote ++ "/" ++ branch ++ "..."))
    (seqRun (run_command w ("git pull " ++ remote ++ " " ++ branch) (some target_dir))
      (fun result => (Outcome.ok result, [Event.msg result])))

/-- `merge_branches(repo_dir, source_branch, target_branch)`: checkout the
target branch, then merge the source branch into it. -/
def merge_branches (w : World) (repo_dir source_branch target_branch : String) : Run String :=
  seqU (tell ("Merging " ++ source_branch ++ " into " ++ target_branch ++ " in " ++ repo_dir ++ "..."))
    (seqU (run_command w ("git checkout " ++ target_branch) (some repo_dir))
      (seqRun (run_command w ("git merge " ++ source_branch) (some repo_dir))
        (fun result => (Outcome.ok result, [Event.msg result]))))

/-- `sync_repos(main_repo_dir, sub_repo_dir, remote_name, branch)`: push the
branch from the main repository to the named remote, checkout the branch in
the sub repository, then pull there with `pull_from_repo`'s defaults
(`origin`, `main`). -/
def sync_repos (w : World) (main_repo_dir sub_repo_dir remote_name branch : String) : Run Unit :=
  seqU (push_to_repo w main_repo_dir remote_name branch)
    (seqU (run_command w ("git checkout " ++ branch) (some sub_repo_dir))
      (seqU (pull_from_repo w sub_repo_dir "origin" "main") skip))

/-- The parsed CLI arguments.  Absent optional strings (`--main-repo`,
`--sub-repo`, `--source-branch`) are modelled as `""` (both `None` and `""`
are falsy in the Python conditions that consume them). -/
structure Args where
  main_repo : String
  sub_repo : String
  action : String
  message : String
  branch : String
  source_branch : String
  main_dir : String
  sub_dir : String
deriving Repr, DecidableEq

/-- The defaults argparse supplies when a flag is not given. -/
def defaultArgs : Args :=
  { main_repo := ""
    sub_repo := ""
    action := "setup"
    message := "Update from script"
    branch := "main"
    source_branch := ""
    main_dir := "main_repo"
    sub_dir := "sub_repo" }

/-- `main()`: substitute the globals for missing URL arguments, then dispatch
on the action. -/
def main (g : Globals) (w : World) (args : Args) : Run Unit :=
  let main_repo := if args.main_repo ≠ "" then args.main_repo else g.mainGitHubURL
  let sub_repo := if args.sub_repo ≠ "" then args.sub_repo else g.subGitHubURL
  if args.action = "setup" then
    if sub_repo = "" then
      (Outcome.exit 1,
       [Event.msg "Error: No sub repository URL provided. Please either set the global subGitHubURL or provide --sub-repo"])
    else
      seqRun (setup_repositories g w main_repo sub_repo args.main_dir args.sub_dir) (fun dirs =>
        seqU (add_sub_repo_as_remote w dirs.1 dirs.2 "subrepo")
          (tell "Repositories setup complete!"))
  else if args.action = "commit" then
    seqU (commit_changes w args.main_dir args.message) skip
  else if args.action = "push" then
    seqU (push_to_repo w args.main_dir "subrepo" args.branch) skip
  else if args.action = "pull" then
    seqU (pull_from_repo w args.main_dir "origin" args.branch) skip
  else if args.action = "merge" then
    if args.source_branch = "" then
      (Outcome.exit 1, [Event.msg "Error: --source-branch is required for merge operation"])
    else
      seqU (merge_branches w args.main_dir args.source_branch args.branch) skip
  else if args.action = "sync" then
    sync_repos w args.main_dir args.sub_dir "subrepo" args.branch
  else skip

/-- Project the external commands (with working directories) out of a trace. -/
def cmdsOf : List Event → List (String × Option String)
  | [] => []
  | Event.cmd c d :: es => (c, d) :: cmdsOf es
  | Event.mkdirs _ :: es => cmdsOf es
  | Event.msg _ :: es => cmdsOf es

/-! ## Spec-modelled semantics of the external tool's remote table -/

/-- Modelled from the spec: the remote table of one repository
(§3 `RemoteBinding`), which the source only manipulates through the external
tool.  `git remote add <name> <url>` appends a new binding. -/
def remoteAdd (st : List (String × String)) (n u : String) : List (String × String) :=
  st ++ [(n, u)]

/-- Modelled from the spec: `git remote set-url <name> <url>` rebinds every
entry of exactly that name to the new url, leaving the rest unchanged
(§3: "rebinding an existing name updates its target rather than erroring"). -/
def remoteSetUrl (st : List (String × String)) (n u : String) : List (String × String) :=
  st.map (fun p => if p.1 = n then (n, u) else p)

/-! ## The single-quote interpolation model for `commit_changes` -/

/-- The ASCII single-quote character interpolated around the commit message. -/
def squote : Char := Char.ofNat 39

/-- `arg` is one single-quoted shell word: it is delimited by a leading and a
trailing single quote and its body contains no further single quote. -/
def isSingleQuoted (arg : String) : Prop :=
  ∃ body : List Char, arg.data = squote :: (body ++ [squote]) ∧ squote ∉ body

/-! ## Concrete worlds used by the witness theorems -/

/-- A world in which every command succeeds with stdout `" out "`. -/
def wOk : World :=
  ⟨fun _ _ => ⟨0, " out ", ""⟩, fun _ => true, fun d => "/abs/" ++ d⟩

/-- Like `wOk`, but no path exists yet. -/
def wOkNoGit : World :=
  ⟨fun _ _ => ⟨0, " out ", ""⟩, fun _ => false, fun d => "/abs/" ++ d⟩

/-- A world in which every command fails with stderr `"boom"`. -/
def wFail : World :=
  ⟨fun _ _ => ⟨1, "", "boom"⟩, fun _ => true, fun d => "/abs/" ++ d⟩

/-- A world in which exactly the push to `subrepo`/`main` fails. -/
def wPushFail : World :=
  ⟨fun c _ => if c = "git push subrepo main" then ⟨1, "", "rejected"⟩ else ⟨0, "", ""⟩,
   fun _ => true, fun d => "/abs/" ++ d⟩

/-- A world in which exactly `git checkout main` fails. -/
def wCheckoutFail : World :=
  ⟨fun c _ => if c = "git checkout main" then ⟨1, "", "no branch"⟩ else ⟨0, "", ""⟩,
   fun _ => true, fun d => "/abs/" ++ d⟩

/-- A world in which `git remote` lists `origin` and `subrepo`, and every
command succeeds. -/
def wRemoteListed : World :=
  ⟨fun c _ => if c = "git remote" then ⟨0, "origin\nsubrepo", ""⟩ else ⟨0, "", ""⟩,
   fun _ => true, fun d => "/abs/" ++ d⟩

/-- A world in which exactly the commit command (for the message `"msg"`)
fails, as with nothing to commit. -/
def wCommitFail : World :=
  ⟨fun c _ => if c = "git commit -m 'msg'" then ⟨1, "", "nothing to commit"⟩ else ⟨0, "", ""⟩,
   fun _ => true, fun d => "/abs/" ++ d⟩

/-- Both module-level URL globals cleared. -/
def clearedGlobals : Globals :=
  ⟨"", ""⟩

/-! ## Helper lemmas -/

theorem cmdsOf_append (a b : List Event) : cmdsOf (a ++ b) = cmdsOf a ++ cmdsOf b := by
  induction a with
  | nil => rfl
  | cons e es ih => cases e <;> simp [cmdsOf, ih]

theorem run_command_ok {w : World} {c : String} {d : Option String}
    (h : (w.exec c d).exitCode = 0) :
    run_command w c d = (Outcome.ok (pyStrip (w.exec c d).stdout), [Event.cmd c d]) := by
  simp [run_command, h]

theorem run_command_err {w : World} {c : String} {d : Option String}
    (h : (w.exec c d).exitCode ≠ 0) :
    run_command w c d =
      (Outcome.exit 1,
       [Event.cmd c d,
        Event.msg ("Error executing command: " ++ c),
        Event.msg ("Error message: " ++ (w.exec c d).stderr)]) := by
  simp [run_command, h]

theorem cmdsOf_run_command (w : World) (c : String) (d : Option String) :
    cmdsOf (run_command w c d).2 = [(c, d)] := by
  by_cases h : (w.exec c d).exitCode = 0 <;> simp [run_command, h, cmdsOf]

theorem cmdsOf_seqRun_const {α β : Type} (x : Run α) (f : α → Run β)
    (hf : ∀ a, cmdsOf (f a).2 = []) :
    cmdsOf (seqRun x f).2 = cmdsOf x.2 := by
  rcases x with ⟨o, tr⟩
  cases o <;> simp [seqRun, cmdsOf_append, hf]

theorem mem_seqRun {α β : Type} {e : Event} {x : Run α} {f : α → Run β} :
    e ∈ (seqRun x f).2 ↔ e ∈ x.2 ∨ ∃ a, x.1 = Outcome.ok a ∧ e ∈ (f a).2 := by
  rcases x with ⟨o, tr⟩
  cases o <;> simp [seqRun]

theorem run_command_ok_iff (w : World) (c : String) (d : Option String) :
    (∃ s, (run_command w c d).1 = Outcome.ok s) ↔ (w.exec c d).exitCode = 0 := by
  by_cases h : (w.exec c d).exitCode = 0 <;> simp [run_command, h]

theorem mem_run_command {w : World} {c : String} {d : Option String} {e : Event} :
    e ∈ (run_command w c d).2 ↔
      e = Event.cmd c d ∨
      ((w.exec c d).exitCode ≠ 0 ∧
        (e = Event.msg ("Error executing command: " ++ c) ∨
         e = Event.msg ("Error message: " ++ (w.exec c d).stderr))) := by
  by_cases h : (w.exec c d).exitCode = 0 <;> simp [run_command, h, or_assoc]

theorem cmdsOf_useGlobalURL (p q l : String) : cmdsOf (useGlobalURL p q l).2 = [] := by
  unfold useGlobalURL
  split <;> rfl

theorem clone_ne_init (s t : String) : ("git clone " ++ s ++ " " ++ t) ≠ "git init" := by
  intro h
  have hlen := congrArg String.length h
  rw [String.length_append, String.length_append, String.length_append] at hlen
  have h1 : ("git clone ").length = 10 := by decide
  have h2 : (" ").length = 1 := by decide
  have h3 : ("git init").length = 8 := by decide
  rw [h1, h2, h3] at hlen
  omega

theorem init_ne_clone (s t : String) : "git init" ≠ ("git clone " ++ s ++ " " ++ t) :=
  fun h => clone_ne_init s t h.symm


theorem seqRun_okc {α β : Type} (a : α) (tr : List Event) (f : α → Run β) :
    seqRun (Outcome.ok a, tr) f = ((f a).1, tr ++ (f a).2) := rfl

theorem seqRun_exitc {α β : Type} (n : Nat) (tr : List Event) (f : α → Run β) :
    seqRun (Outcome.exit n, tr) f = (Outcome.exit n, tr) := rfl

theorem seqU_tell {β : Type} (s : String) (y : Run β) :
    seqU (tell s) y = (y.1, Event.msg s :: y.2) := rfl

theorem remote_add_set_filter (st : List (String × String)) (n u v : String)
    (h : ∀ p ∈ st, p.1 ≠ n) :
    (remoteSetUrl (remoteAdd st n u) n v).filter (fun p => p.1 == n) = [(n, v)] := by
  induction st with
  | nil => simp [remoteAdd, remoteSetUrl]
  | cons p st ih =>
    have hp : p.1 ≠ n := h p (List.mem_cons_self p st)
    have hpb : (p.1 == n) = false := by simp [hp]
    have hih := ih (fun q hq => h q (List.mem_cons_of_mem p hq))
    simp only [remoteAdd, List.cons_append, remoteSetUrl, List.map_cons] at hih ⊢
    rw [if_neg hp, List.filter_cons, hpb]
    simpa using hih

theorem cmdsOf_seqU_run_skip (w : World) (c : String) (d : Option String) :
    cmdsOf (seqU (run_command w c d) skip).2 = [(c, d)] := by
  rw [seqU]
  rw [cmdsOf_seqRun_const (run_command w c d) (fun _ => skip) (fun a => rfl)]
  exact cmdsOf_run_command w c d

/-! ## The claims -/

/-- C1: `run_command` returns the command's stdout with surrounding whitespace
trimmed when the exit status is zero; on a non-zero exit it reports the error
together with the captured stderr and terminates the process with exit code 1,
so that any continuation sequenced after the failed command never runs. -/
theorem C1_run_command_fatal (w : World) (c : String) (d : Option String) :
    ((w.exec c d).exitCode = 0 →
      run_command w c d = (Outcome.ok (pyStrip (w.exec c d).stdout), [Event.cmd c d])) ∧
    ((w.exec c d).exitCode ≠ 0 →
      run_command w c d =
        (Outcome.exit 1,
         [Event.cmd c d,
          Event.msg ("Error executing command: " ++ c),
          Event.msg ("Error message: " ++ (w.exec c d).stderr)])) ∧
    ((w.exec c d).exitCode ≠ 0 →
      ∀ (β : Type) (f : String → Run β),
        seqRun (run_command w c d) f = (Outcome.exit 1, (run_command w c d).2)) := by
  refine ⟨fun h => ?_, fun h => ?_, fun h β f => ?_⟩ <;>
    simp [run_command, seqRun, h]

theorem C1_run_command_fatal_witness :
    (run_command wOk "git status" none =
      (Outcome.ok "out", [Event.cmd "git status" none])) ∧
    (run_command wFail "git status" none =
      (Outcome.exit 1,
       [Event.cmd "git status" none,
        Event.msg "Error executing command: git status",
        Event.msg "Error message: boom"])) :=
  by
  refine ⟨?_, ?_⟩
  · exact (C1_run_command_fatal wOk "git status" none).1 (by decide)
  · exact (C1_run_command_fatal wFail "git status" none).2.1 (by decide)

/-- C2: `sync_repos` issues exactly the sequence push-to-remote (from the main
directory), checkout of the branch (in the sub directory), pull from `origin`
`main` (in the sub directory, ignoring the branch parameter); a failure at any
step terminates the process and prevents all later commands. -/
theorem C2_sync_sequence (w : World) (md sd rn br : String) :
    ((w.exec ("git push " ++ rn ++ " " ++ br) (some md)).exitCode = 0 →
      (w.exec ("git checkout " ++ br) (some sd)).exitCode = 0 →
      (w.exec "git pull origin main" (some sd)).exitCode = 0 →
      cmdsOf (sync_repos w md sd rn br).2 =
        [("git push " ++ rn ++ " " ++ br, some md),
         ("git checkout " ++ br, some sd),
         ("git pull origin main", some sd)]) ∧
    ((w.exec ("git push " ++ rn ++ " " ++ br) (some md)).exitCode ≠ 0 →
      (sync_repos w md sd rn br).1 = Outcome.exit 1 ∧
      cmdsOf (sync_repos w md sd rn br).2 = [("git push " ++ rn ++ " " ++ br, some md)]) ∧
    ((w.exec ("git push " ++ rn ++ " " ++ br) (some md)).exitCode = 0 →
      (w.exec ("git checkout " ++ br) (some sd)).exitCode ≠ 0 →
      (sync_repos w md sd rn br).1 = Outcome.exit 1 ∧
      cmdsOf (sync_repos w md sd rn br).2 =
        [("git push " ++ rn ++ " " ++ br, some md),
         ("git checkout " ++ br, some sd)]) := by
  refine ⟨fun h1 h2 h3 => ?_, fun h1 => ?_, fun h1 h2 => ?_⟩ <;>
    simp [sync_repos, push_to_repo, pull_from_repo, run_command, seqRun, seqU, tell, skip,
      cmdsOf, cmdsOf_append, h1]
  · simp [h2, h3, cmdsOf]
  · simp [h2, cmdsOf]

theorem C2_sync_sequence_witness :
    cmdsOf (sync_repos wOk "m" "s" "subrepo" "main").2 =
      [("git push subrepo main", some "m"),
       ("git checkout main", some "s"),
       ("git pull origin main", some "s")] ∧
    ((sync_repos wPushFail "m" "s" "subrepo" "main").1 = Outcome.exit 1 ∧
      cmdsOf (sync_repos wPushFail "m" "s" "subrepo" "main").2 =
        [("git push subrepo main", some "m")]) ∧
    ((sync_repos wCheckoutFail "m" "s" "subrepo" "main").1 = Outcome.exit 1 ∧
      cmdsOf (sync_repos wCheckoutFail "m" "s" "subrepo" "main").2 =
        [("git push subrepo main", some "m"), ("git checkout main", some "s")]) :=
  by
  refine ⟨?_, ?_, ?_⟩
  · exact (C2_sync_sequence wOk "m" "s" "subrepo" "main").1 (by decide) (by decide) (by decide)
  · exact (C2_sync_sequence wPushFail "m" "s" "subrepo" "main").2.1 (by decide)
  · exact (C2_sync_sequence wCheckoutFail "m" "s" "subrepo" "main").2.2 (by decide) (by decide)

/-- C3: provisioning is idempotent: when both directories already contain
`.git` repository metadata, `setup_repositories` issues no external command at
all (in particular no clone and no init) and returns the two directories
unchanged, so a second provision call after a successful first one performs no
redundant clone and leaves the end state alone. -/
theorem C3_setup_idempotent (g : Globals) (w : World) (mu su md sd : String)
    (hm : w.pathExists (joinPath md ".git") = true)
    (hs : w.pathExists (joinPath sd ".git") = true) :
    (setup_repositories g w mu su md sd).1 = Outcome.ok (md, sd) ∧
    cmdsOf (setup_repositories g w mu su md sd).2 = [] := by
  constructor <;>
    simp [setup_repositories, hm, hs, seqU, seqRun, tell, skip, cmdsOf, cmdsOf_append,
      cmdsOf_useGlobalURL]

theorem C3_setup_idempotent_witness :
    (setup_repositories shippedGlobals wOk "u1" "u2" "m" "s").1 = Outcome.ok ("m", "s") ∧
    cmdsOf (setup_repositories shippedGlobals wOk "u1" "u2" "m" "s").2 = [] :=
  C3_setup_idempotent shippedGlobals wOk "u1" "u2" "m" "s" (by decide) (by decide)

/-- C4: with no URL available (argument empty and global cleared) and no
existing repository in either directory, the main repository is initialized
empty (`git init` is the only command issued) while the missing sub URL is a
hard error: the error line is printed and the process exits with code 1
without any sub-repository command. -/
theorem C4_missing_url_asymmetry (g : Globals) (w : World) (md sd : String)
    (hgm : g.mainGitHubURL = "") (hgs : g.subGitHubURL = "")
    (hm : w.pathExists (joinPath md ".git") = false)
    (hs : w.pathExists (joinPath sd ".git") = false)
    (hinit : (w.exec "git init" (some md)).exitCode = 0) :
    (setup_repositories g w "" "" md sd).1 = Outcome.exit 1 ∧
    cmdsOf (setup_repositories g w "" "" md sd).2 = [("git init", some md)] ∧
    Event.msg "Error: No sub repository URL provided"
      ∈ (setup_repositories g w "" "" md sd).2 := by
  refine ⟨?_, ?_, ?_⟩ <;>
    simp [setup_repositories, useGlobalURL, hgm, hgs, hm, hs, run_command_ok hinit,
      seqU, seqRun, tell, skip, cmdsOf, cmdsOf_append]

theorem C4_missing_url_asymmetry_witness :
    (setup_repositories clearedGlobals wOkNoGit "" "" "m" "s").1 = Outcome.exit 1 ∧
    cmdsOf (setup_repositories clearedGlobals wOkNoGit "" "" "m" "s").2 =
      [("git init", some "m")] ∧
    Event.msg "Error: No sub repository URL provided"
      ∈ (setup_repositories clearedGlobals wOkNoGit "" "" "m" "s").2 :=
  C4_missing_url_asymmetry clearedGlobals wOkNoGit "m" "s"
    (by decide) (by decide) (by decide) (by decide) (by decide)

/-- C5: remote linking resolves the sub path through `os.path.abspath` before
use and decides presence by exact membership of the remote name in the
whitespace-token list of the `git remote` output: if present, the one command
issued is a `set-url` to the resolved absolute path (idempotent re-link), and
if absent, an `add` of the same target; and in the modelled remote-table
semantics, an `add` followed by a `set-url` of the same name and target leaves
exactly one entry of that name, bound to the resolved absolute path. -/
theorem C5_link_idempotent (w : World) (md sd rn : String)
    (hr : (w.exec "git remote" (some md)).exitCode = 0) :
    (rn ∈ pySplit (pyStrip (w.exec "git remote" (some md)).stdout) →
      cmdsOf (add_sub_repo_as_remote w md sd rn).2 =
        [("git remote", some md),
         ("git remote set-url " ++ rn ++ " " ++ w.abspath sd, some md)]) ∧
    (rn ∉ pySplit (pyStrip (w.exec "git remote" (some md)).stdout) →
      cmdsOf (add_sub_repo_as_remote w md sd rn).2 =
        [("git remote", some md),
         ("git remote add " ++ rn ++ " " ++ w.abspath sd, some md)]) ∧
    (∀ st : List (String × String), (∀ p ∈ st, p.1 ≠ rn) →
      (remoteSetUrl (remoteAdd st rn (w.abspath sd)) rn (w.abspath sd)).filter
          (fun p => p.1 == rn) = [(rn, w.abspath sd)]) := by
  refine ⟨fun h => ?_, fun h => ?_, fun st hst => remote_add_set_filter st rn _ _ hst⟩ <;>
    simp [add_sub_repo_as_remote, run_command_ok hr, seqRun_okc, seqU_tell,
      cmdsOf_seqU_run_skip, h, cmdsOf, cmdsOf_append]

theorem C5_link_idempotent_witness :
    (cmdsOf (add_sub_repo_as_remote wRemoteListed "m" "s" "subrepo").2 =
      [("git remote", some "m"),
       ("git remote set-url subrepo /abs/s", some "m")]) ∧
    (cmdsOf (add_sub_repo_as_remote wOk "m" "s" "subrepo").2 =
      [("git remote", some "m"),
       ("git remote add subrepo /abs/s", some "m")]) ∧
    (remoteSetUrl (remoteAdd [("origin", "u")] "subrepo" "/abs/s") "subrepo" "/abs/s").filter
        (fun p => p.1 == "subrepo") = [("subrepo", "/abs/s")] := by
  refine ⟨?_, ?_, ?_⟩
  · exact (C5_link_idempotent wRemoteListed "m" "s" "subrepo" (by decide)).1 (by decide)
  · exact (C5_link_idempotent wOk "m" "s" "subrepo" (by decide)).2.1 (by decide)
  · exact (C5_link_idempotent wOk "m" "s" "subrepo" (by decide)).2.2 [("origin", "u")]
      (by decide)

/-- C6: `commit_changes` stages everything first (`git add .`) and then
commits with the given message; when the commit command exits non-zero (as
with nothing to commit) this propagates as a fatal error: the process
terminates with exit code 1 after reporting the captured stderr, with no
special-cased success path. -/
theorem C6_commit_failure_fatal (w : World) (rd m : String)
    (ha : (w.exec "git add ." (some rd)).exitCode = 0)
    (hc : (w.exec ("git commit -m '" ++ m ++ "'") (some rd)).exitCode ≠ 0) :
    (commit_changes w rd m).1 = Outcome.exit 1 ∧
    cmdsOf (commit_changes w rd m).2 =
      [("git add .", some rd), ("git commit -m '" ++ m ++ "'", some rd)] ∧
    Event.msg ("Error message: " ++ (w.exec ("git commit -m '" ++ m ++ "'") (some rd)).stderr)
      ∈ (commit_changes w rd m).2 := by
  refine ⟨?_, ?_, ?_⟩ <;>
    simp [commit_changes, run_command_ok ha, run_command_err hc, seqRun, seqU, tell, skip,
      cmdsOf, cmdsOf_append]

theorem C6_commit_failure_fatal_witness :
    (commit_changes wCommitFail "r" "msg").1 = Outcome.exit 1 ∧
    cmdsOf (commit_changes wCommitFail "r" "msg").2 =
      [("git add .", some "r"), ("git commit -m 'msg'", some "r")] ∧
    Event.msg "Error message: nothing to commit" ∈ (commit_changes wCommitFail "r" "msg").2 := by
  have h := C6_commit_failure_fatal wCommitFail "r" "msg" (by decide) (by decide)
  exact ⟨h.1, h.2.1, h.2.2⟩

/-- C7: configuration errors are rejected before any external command is
issued: a `merge` action without a source branch, and a `setup` action with no
sub-repository URL available (argument empty and global cleared), both print
an error and terminate the process with exit code 1 with an empty command
trace. -/
theorem C7_config_errors_before_commands (g : Globals) (w : World) (args : Args) :
    (args.action = "merge" → args.source_branch = "" →
      (main g w args).1 = Outcome.exit 1 ∧ cmdsOf (main g w args).2 = []) ∧
    (args.action = "setup" → args.sub_repo = "" → g.subGitHubURL = "" →
      (main g w args).1 = Outcome.exit 1 ∧ cmdsOf (main g w args).2 = []) := by
  constructor
  · rintro h1 h2
    constructor <;> simp [main, h1, h2, cmdsOf]
  · rintro h1 h2 h3
    constructor <;> simp [main, h1, h2, h3, cmdsOf]

theorem C7_config_errors_before_commands_witness :
    ((main shippedGlobals wOk { defaultArgs with action := "merge" }).1 = Outcome.exit 1 ∧
      cmdsOf (main shippedGlobals wOk { defaultArgs with action := "merge" }).2 = []) ∧
    ((main clearedGlobals wOk defaultArgs).1 = Outcome.exit 1 ∧
      cmdsOf (main clearedGlobals wOk defaultArgs).2 = []) :=
  ⟨(C7_config_errors_before_commands shippedGlobals wOk
      { defaultArgs with action := "merge" }).1 (by decide) (by decide),
   (C7_config_errors_before_commands clearedGlobals wOk defaultArgs).2
      (by decide) (by decide) (by decide)⟩

/-- C8: the CLI remote targets are hard-coded and asymmetric: whatever the
other arguments are, a `push` action issues exactly one command, a push to the
remote literally named `subrepo` on the chosen branch, and a `pull` action
issues exactly one command, a pull from the remote literally named `origin` on
the chosen branch; no argument field selects either remote name. -/
theorem C8_push_pull_remotes_hardcoded (g : Globals) (w : World) (args : Args) :
    (args.action = "push" →
      cmdsOf (main g w args).2 = [("git push subrepo " ++ args.branch, some args.main_dir)]) ∧
    (args.action = "pull" →
      cmdsOf (main g w args).2 = [("git pull origin " ++ args.branch, some args.main_dir)]) := by
  constructor <;> intro h <;>
    simp [main, h, push_to_repo, pull_from_repo, seqU, seqU_tell, tell, skip,
      cmdsOf_seqRun_const, cmdsOf_run_command, cmdsOf]

theorem C8_push_pull_remotes_hardcoded_witness :
    cmdsOf (main shippedGlobals wOk { defaultArgs with action := "push" }).2 =
      [("git push subrepo main", some "main_repo")] ∧
    cmdsOf (main shippedGlobals wOk { defaultArgs with action := "pull" }).2 =
      [("git pull origin main", some "main_repo")] :=
  ⟨(C8_push_pull_remotes_hardcoded shippedGlobals wOk
      { defaultArgs with action := "push" }).1 (by decide),
   (C8_push_pull_remotes_hardcoded shippedGlobals wOk
      { defaultArgs with action := "pull" }).2 (by decide)⟩

/-- C9: under the shipped globals the empty-initialization fallback is dead
code: whenever the main directory has no repository metadata,
`setup_repositories` issues a clone of the main directory (from the argument
URL, or from the shipped global when the argument is empty) and `git init` is
never issued, in any directory, on any path through the function. -/
theorem C9_shipped_main_never_init (w : World) (mu su md sd : String)
    (hm : w.pathExists (joinPath md ".git") = false) :
    Event.cmd ("git clone " ++ (if mu = "" then shippedGlobals.mainGitHubURL else mu) ++ " " ++ md)
        none ∈ (setup_repositories shippedGlobals w mu su md sd).2 ∧
    ∀ d, Event.cmd "git init" d ∉ (setup_repositories shippedGlobals w mu su md sd).2 := by
  have hgm : shippedGlobals.mainGitHubURL ≠ "" := by decide
  have hgs : shippedGlobals.subGitHubURL ≠ "" := by decide
  constructor
  · by_cases hmu : mu = "" <;>
      simp [setup_repositories, useGlobalURL, hm, hmu, hgm, hgs, seqU, mem_seqRun,
        run_command_ok_iff, mem_run_command, tell, skip]
  · intro d
    by_cases hmu : mu = "" <;> by_cases hsu : su = "" <;>
        by_cases hsd : w.pathExists (joinPath sd ".git") <;>
      simp [setup_repositories, useGlobalURL, hm, hmu, hsu, hsd, hgm, hgs, seqU, mem_seqRun,
        run_command_ok_iff, mem_run_command, tell, skip, clone_ne_init, init_ne_clone]

theorem C9_shipped_main_never_init_witness :
    Event.cmd ("git clone " ++ shippedGlobals.mainGitHubURL ++ " " ++ "m") none
        ∈ (setup_repositories shippedGlobals wOkNoGit "" "u2" "m" "s").2 ∧
    ∀ d, Event.cmd "git init" d ∉ (setup_repositories shippedGlobals wOkNoGit "" "u2" "m" "s").2 := by
  have h := C9_shipped_main_never_init wOkNoGit "" "u2" "m" "s" (by decide)
  simpa using h

/-- C10: `commit_changes` passes to the command executor exactly the string
`"git commit -m '" ++ message ++ "'"` (after the staging command), with the
message interpolated verbatim and unescaped; consequently the quoted argument
is one single-quoted shell word exactly when the message contains no
single-quote character. -/
theorem C10_commit_message_interpolated (w : World) (rd m : String)
    (ha : (w.exec "git add ." (some rd)).exitCode = 0) :
    cmdsOf (commit_changes w rd m).2 =
      [("git add .", some rd), ("git commit -m '" ++ m ++ "'", some rd)] ∧
    (squote ∉ m.data → isSingleQuoted ("'" ++ m ++ "'")) ∧
    (squote ∈ m.data → ¬ isSingleQuoted ("'" ++ m ++ "'")) := by
  have hq : ("'" : String).data = [squote] := by decide
  have hdata : ("'" ++ m ++ "'").data = squote :: (m.data ++ [squote]) := by
    simp [String.data_append, hq]
    decide
  refine ⟨?_, fun h => ⟨m.data, hdata, h⟩, fun h hiq => ?_⟩
  · simp [commit_changes, run_command_ok ha, seqU, seqU_tell, tell, skip, seqRun_okc,
      cmdsOf_seqRun_const, cmdsOf_run_command, cmdsOf, cmdsOf_append]
  · obtain ⟨body, hb, hnb⟩ := hiq
    rw [hdata] at hb
    simp only [List.cons.injEq, true_and, List.append_left_inj] at hb
    exact hnb (hb ▸ h)

theorem C10_commit_message_interpolated_witness :
    cmdsOf (commit_changes wOk "r" "hi").2 =
      [("git add .", some "r"), ("git commit -m 'hi'", some "r")] ∧
    isSingleQuoted ("'" ++ "hi" ++ "'") := by
  have h := C10_commit_message_interpolated wOk "r" "hi" (by decide)
  exact ⟨h.1, h.2.1 (by decide)⟩

end GitRepoManager
